import Mathlib

/-
Verification of the request/response correlation bridge of
`tauri-plugin-mcp-bridge` (file `src/commands/execute_js.rs`).

The development embeds the two functions of that file:

* `prepare_script` — the pure script-preparation heuristic, translated
  clause by clause from the Rust source;
* `execute_js` — the execution dispatcher.  Its interaction with the
  outside world (the webview `eval` call, the oneshot result channel,
  the 5-second timer) is represented by explicit outcome parameters
  (`EvalOutcome`, `WaitOutcome`); its own effects on the shared
  pending-results registry, the listener subscription, and its return
  value are computed by `execute_js_paths`.
* the notification listener closure passed to `window.listen`
  (the event correlator) becomes `listener_step`, a single atomic
  action on the shared registry state: the closure filters the payload
  and the spawned task removes the entry and sends the envelope while
  holding the registry mutex.

JSON values (`serde_json::Value`) are modelled by `JVal`; numbers are
irrelevant to every claim and carried as `Int`.  A `serde_json::Map` is
an association list, looked up by first key match.
-/

/-- Model of `serde_json::Value`. -/
inductive JVal : Type where
  | null : JVal
  | bool : Bool → JVal
  | num : Int → JVal
  | str : String → JVal
  | arr : List JVal → JVal
  | obj : List (String × JVal) → JVal
deriving Repr

/-- Model of `serde_json::Map::get`: first binding of the key wins. -/
def getField (m : List (String × JVal)) (k : String) : Option JVal :=
  match m with
  | [] => none
  | (k', v) :: rest => if k' = k then some v else getField rest k

/-- Model of `Value::as_bool`. -/
def JVal.as_bool : JVal → Option Bool
  | JVal.bool b => some b
  | _ => none

/-- Model of `Value::as_str`. -/
def JVal.as_str : JVal → Option String
  | JVal.str s => some s
  | _ => none

/-
Rust `str` primitives used by `prepare_script`, modelled structurally
over the underlying character list so they compute inside the kernel.
They agree with the Rust standard library on every input the claims
touch (whitespace handling restricted to ASCII whitespace).
-/

/-- Model of Rust `str::trim`: drop whitespace from both ends. -/
def rust_trim (s : String) : String :=
  ⟨((s.data.dropWhile Char.isWhitespace).reverse.dropWhile
      Char.isWhitespace).reverse⟩

/-- Model of Rust `str::starts_with` for a string pattern. -/
def rust_starts_with (s p : String) : Bool :=
  p.data.isPrefixOf s.data

/-- Model of Rust `str::ends_with` for a string pattern. -/
def rust_ends_with (s p : String) : Bool :=
  p.data.isSuffixOf s.data

/-- Model of Rust `str::contains` for a char pattern. -/
def rust_contains (s : String) (c : Char) : Bool :=
  s.data.contains c

/-- Model of Rust `str::strip_suffix` for a one-char pattern: the string
without its last character, when that character matches. -/
def rust_strip_suffix_char (s : String) (c : Char) : Option String :=
  if rust_ends_with s ⟨[c]⟩ then some ⟨s.data.dropLast⟩ else none

/-
Script preparation (`prepare_script` in execute_js.rs, lines 192-232).
The local `let` bindings of the Rust function are hoisted to named
definitions so the classification steps can be referred to in theorems.
Each definition is a literal transcription of the corresponding Rust
expression, applied to the trimmed script text.
-/

/-- `has_real_semicolons`: a semicolon that is not the single trailing one. -/
def has_real_semicolons (trimmed : String) : Bool :=
  match rust_strip_suffix_char trimmed ';' with
  | some without_trailing => rust_contains without_trailing ';'
  | none => rust_contains trimmed ';'

/-- `is_multi_statement`: internal semicolons or a statement-keyword prefix. -/
def is_multi_statement (trimmed : String) : Bool :=
  has_real_semicolons trimmed
    || rust_starts_with trimmed "const "
    || rust_starts_with trimmed "let "
    || rust_starts_with trimmed "var "
    || rust_starts_with trimmed "if "
    || rust_starts_with trimmed "for "
    || rust_starts_with trimmed "while "
    || rust_starts_with trimmed "function "
    || rust_starts_with trimmed "class "
    || rust_starts_with trimmed "try "

/-- `is_single_expression`: single-expression start/end patterns. -/
def is_single_expression (trimmed : String) : Bool :=
  rust_starts_with trimmed "await "
    || rust_starts_with trimmed "("
    || rust_starts_with trimmed "JSON."
    || rust_starts_with trimmed "\x7b"
    || rust_starts_with trimmed "["
    || rust_ends_with trimmed ")()"

/-- `is_wrapped_expression`: bracketed or awaited expression patterns. -/
def is_wrapped_expression (trimmed : String) : Bool :=
  (rust_starts_with trimmed "(" && rust_ends_with trimmed ")")
    || (rust_starts_with trimmed "(" && rust_ends_with trimmed ")()")
    || (rust_starts_with trimmed "JSON." && rust_ends_with trimmed ")")
    || rust_starts_with trimmed "await "

/-- `prepare_script` (execute_js.rs lines 192-232): prefix `return ` to
snippets classified as expressions, leave everything else unchanged. -/
def prepare_script (script : String) : String :=
  let trimmed := rust_trim script
  let needs_return := !(rust_starts_with trimmed "return ")
  if needs_return
      && (is_single_expression trimmed
          || is_wrapped_expression trimmed
          || !(is_multi_statement trimmed)) then
    "return " ++ trimmed
  else
    script

/-
The shared mutable state of the bridge: the pending-results registry
(`state.pending_results`, a mutex-guarded `HashMap<String, Sender>`)
together with the record of envelopes delivered on the oneshot result
channels.  The registry is represented by the list of tokens currently
holding a live sender (`HashMap` keys are unique, hence the `Nodup`
hypotheses); a send on the channel registered under a token appends the
envelope to `sent` under that token.
-/

/-- Registry plus channel-delivery state shared by the dispatcher and
the notification listener. -/
structure ExecSt : Type where
  pending : List String
  sent : List (String × JVal)
deriving Repr

/-- Outcome of parsing the raw notification payload with
`serde_json::from_str::<Map<String, Value>>` (execute_js.rs line 60):
either a parse failure or a key/value map. -/
inductive ParsedPayload : Type where
  | parseFail : ParsedPayload
  | parsed : List (String × JVal) → ParsedPayload
deriving Repr

/-- The envelope built by the listener from a matching payload
(execute_js.rs lines 72-88). -/
def build_result (payload : List (String × JVal)) : JVal :=
  if (((getField payload "success").bind JVal.as_bool).getD false) then
    JVal.obj [("success", JVal.bool true),
              ("data", (getField payload "data").getD JVal.null)]
  else
    JVal.obj [("success", JVal.bool false),
              ("error", JVal.str
                (((getField payload "error").bind JVal.as_str).getD
                  "Unknown error"))]

/-- One invocation of the `__script_result` listener closure registered
by `execute_js` for token `tok` (execute_js.rs lines 57-100), including
the spawned completion task: filter the payload, then atomically remove
the registry entry and send the envelope.  The returned flag records
whether the entry was obtained (the `remove` returned `Some`). -/
def listener_step (tok : String) (p : ParsedPayload) (st : ExecSt) :
    ExecSt × Bool :=
  match p with
  | ParsedPayload.parseFail => (st, false)
  | ParsedPayload.parsed payload =>
    match getField payload "exec_id" with
    | some (JVal.str event_exec_id) =>
      if event_exec_id = tok then
        if tok ∈ st.pending then
          ({ pending := st.pending.erase tok,
             sent := st.sent ++ [(tok, build_result payload)] }, true)
        else (st, false)
      else (st, false)
    | _ => (st, false)

/-- The registry `take` operation used by the dispatcher on the timeout
and injection-failure paths (`pending.remove(&exec_id)`,
execute_js.rs lines 154-155 and 175-176): atomically remove the entry
without completing it.  The flag records whether an entry was found. -/
def take (tok : String) (st : ExecSt) : ExecSt × Bool :=
  if tok ∈ st.pending then
    ({ st with pending := st.pending.erase tok }, true)
  else
    (st, false)

/-- Synchronous outcome of `window.eval(&wrapped_script)`
(execute_js.rs line 152). -/
inductive EvalOutcome : Type where
  | evalOk : EvalOutcome
  | evalErr : String → EvalOutcome
deriving Repr, DecidableEq

/-- Outcome of `tokio::time::timeout(Duration::from_secs(5), rx)`
(execute_js.rs line 164): the envelope was delivered on the channel,
the channel was dropped, or the timer fired first. -/
inductive WaitOutcome : Type where
  | delivered : JVal → WaitOutcome
  | channelClosed : WaitOutcome
  | timedOut : WaitOutcome
deriving Repr

/-- The timeout bound, in seconds (execute_js.rs line 164). -/
def timeout_secs : Nat := 5

/-- Observable effects of one `execute_js` call: its Rust return value,
the registry as left by the dispatcher's own insert/remove operations,
whether `window.unlisten` ran before returning, and whether the call
waited on the result channel. -/
structure DispatchOut : Type where
  ret : Except String JVal
  pending : List String
  unlistened : Bool
  waited : Bool
deriving Repr

/-- The dispatcher `execute_js` (execute_js.rs lines 36-189), with the
environment interactions abstracted into `inj` (the synchronous result
of injecting the wrapped script) and `wait` (how the bounded wait on
the result channel ended).  `pending0` is the registry content at entry;
the dispatcher first inserts its fresh token, and on the
injection-failure and timeout paths removes it again.  Concurrent
listener activity is composed separately via `listener_step`. -/
def execute_js_paths (tok script : String) (inj : EvalOutcome)
    (wait : WaitOutcome) (pending0 : List String) : DispatchOut :=
  let pending1 := tok :: pending0
  let _prepared := prepare_script script
  match inj with
  | EvalOutcome.evalErr e =>
      { ret := Except.ok (JVal.obj
          [("success", JVal.bool false),
           ("error", JVal.str ("Failed to execute script: " ++ e))]),
        pending := pending1.erase tok,
        unlistened := false,
        waited := false }
  | EvalOutcome.evalOk =>
      match wait with
      | WaitOutcome.delivered v =>
          { ret := Except.ok v,
            pending := pending1,
            unlistened := true,
            waited := true }
      | WaitOutcome.channelClosed =>
          { ret := Except.ok (JVal.obj
              [("success", JVal.bool false),
               ("error", JVal.str "Script execution failed: channel closed")]),
            pending := pending1,
            unlistened := true,
            waited := true }
      | WaitOutcome.timedOut =>
          { ret := Except.ok (JVal.obj
              [("success", JVal.bool false),
               ("error", JVal.str "Script execution timeout")]),
            pending := pending1.erase tok,
            unlistened := true,
            waited := true }

/-- Modelled from the spec (section 4.6, clause 4): the envelope the
Event Correlator is described to build — success exactly when the
payload carries the boolean `true` under `success`, the data field
defaulting to null, the error message defaulting to the generic
message when `error` is absent or not a string.  Compared against
`build_result`, which is translated from the source. -/
def envelope_spec (payload : List (String × JVal)) : JVal :=
  match getField payload "success" with
  | some (JVal.bool true) =>
      JVal.obj [("success", JVal.bool true),
                ("data", (getField payload "data").getD JVal.null)]
  | _ =>
      JVal.obj [("success", JVal.bool false),
                ("error", JVal.str
                  (match getField payload "error" with
                   | some (JVal.str m) => m
                   | _ => "Unknown error"))]

/-- Whether a parsed-payload value passes the listener filter for
token `tok`: it parsed, carries a string `exec_id`, and that id equals
the token. -/
def payload_matches (tok : String) (p : ParsedPayload) : Bool :=
  match p with
  | ParsedPayload.parseFail => false
  | ParsedPayload.parsed payload =>
      match getField payload "exec_id" with
      | some (JVal.str event_exec_id) => event_exec_id == tok
      | _ => false

/-- Projection of the Rust `Result`: `true` exactly on `Ok`. -/
def is_ok (r : Except String JVal) : Bool :=
  match r with
  | Except.ok _ => true
  | Except.error _ => false

/-! Helper lemmas about the listener and the registry operations. -/

theorem listener_step_matched (tok : String)
    (payload : List (String × JVal)) (st : ExecSt)
    (hid : getField payload "exec_id" = some (JVal.str tok))
    (hmem : tok ∈ st.pending) :
    listener_step tok (ParsedPayload.parsed payload) st
      = ({ pending := st.pending.erase tok,
           sent := st.sent ++ [(tok, build_result payload)] }, true) := by
  unfold listener_step
  dsimp only
  rw [hid]
  simp [hmem]

theorem listener_step_matched_absent (tok : String)
    (payload : List (String × JVal)) (st : ExecSt)
    (hid : getField payload "exec_id" = some (JVal.str tok))
    (hmem : tok ∉ st.pending) :
    listener_step tok (ParsedPayload.parsed payload) st = (st, false) := by
  unfold listener_step
  dsimp only
  rw [hid]
  simp [hmem]

theorem take_present (tok : String) (st : ExecSt)
    (hmem : tok ∈ st.pending) :
    take tok st = ({ st with pending := st.pending.erase tok }, true) := by
  unfold take
  simp [hmem]

theorem take_absent (tok : String) (st : ExecSt)
    (hmem : tok ∉ st.pending) :
    take tok st = (st, false) := by
  unfold take
  simp [hmem]

/-- The error-message extraction of `build_result` agrees with the
case analysis of the spec: the payload error string when present and a
string, the generic message otherwise. -/
theorem build_result_error_eq (payload : List (String × JVal)) :
    ((getField payload "error").bind JVal.as_str).getD "Unknown error"
      = match getField payload "error" with
        | some (JVal.str m) => m
        | _ => "Unknown error" := by
  cases h : getField payload "error" with
  | none => rfl
  | some v => cases v <;> rfl

/-- C1: for a registered token, across both interleavings of the
matching listener callback and the timeout path, exactly one of the two
obtains the registry entry (flag `true`), the other observes absence
and leaves the state unchanged (flag `false`); afterwards the registry
holds no entry for the token, and the result channel received the
envelope exactly once (listener first) or not at all (timeout first,
the caller then being released by the timeout return). -/
theorem exactly_once_removal (st : ExecSt) (tok : String)
    (payload : List (String × JVal))
    (hnd : st.pending.Nodup)
    (hmem : tok ∈ st.pending)
    (hid : getField payload "exec_id" = some (JVal.str tok)) :
    (listener_step tok (ParsedPayload.parsed payload) st
        = ({ pending := st.pending.erase tok,
             sent := st.sent ++ [(tok, build_result payload)] }, true))
    ∧ (take tok { pending := st.pending.erase tok,
                  sent := st.sent ++ [(tok, build_result payload)] }
        = ({ pending := st.pending.erase tok,
             sent := st.sent ++ [(tok, build_result payload)] }, false))
    ∧ tok ∉ st.pending.erase tok
    ∧ (take tok st
        = ({ pending := st.pending.erase tok, sent := st.sent }, true))
    ∧ (listener_step tok (ParsedPayload.parsed payload)
          { pending := st.pending.erase tok, sent := st.sent }
        = ({ pending := st.pending.erase tok, sent := st.sent }, false)) := by
  have hne : tok ∉ st.pending.erase tok := hnd.not_mem_erase
  refine ⟨listener_step_matched tok payload st hid hmem,
          take_absent tok _ hne,
          hne,
          ?_,
          listener_step_matched_absent tok payload _ hid hne⟩
  rw [take_present tok st hmem]

/-- C2 (code slip in the source): on the injection-failure path
`execute_js` returns without calling `window.unlisten`, while every
path that reaches the wait does unlisten before returning. -/
theorem unlisten_skipped_on_injection_failure (tok script e : String)
    (wait : WaitOutcome) (pending0 : List String) :
    (execute_js_paths tok script (EvalOutcome.evalErr e) wait
        pending0).unlistened = false
    ∧ (execute_js_paths tok script EvalOutcome.evalOk wait
        pending0).unlistened = true := by
  constructor
  · rfl
  · cases wait <;> rfl

/-- C3: on timeout the dispatcher removes the fresh token from the
registry, returns the `success=false` timeout envelope, the bound is
5 seconds, and a later notification bearing that token finds no entry:
it leaves the state unchanged and sends nothing. -/
theorem timeout_cleans_registry (tok script : String)
    (pending0 : List String) (h : tok ∉ pending0) :
    (execute_js_paths tok script EvalOutcome.evalOk WaitOutcome.timedOut
        pending0).ret
      = Except.ok (JVal.obj
          [("success", JVal.bool false),
           ("error", JVal.str "Script execution timeout")])
    ∧ (execute_js_paths tok script EvalOutcome.evalOk WaitOutcome.timedOut
        pending0).pending = pending0
    ∧ tok ∉ (execute_js_paths tok script EvalOutcome.evalOk
        WaitOutcome.timedOut pending0).pending
    ∧ timeout_secs = 5
    ∧ (∀ (payload : List (String × JVal)) (sent : List (String × JVal)),
        getField payload "exec_id" = some (JVal.str tok) →
        listener_step tok (ParsedPayload.parsed payload)
          { pending := (execute_js_paths tok script EvalOutcome.evalOk
              WaitOutcome.timedOut pending0).pending,
            sent := sent }
          = ({ pending := (execute_js_paths tok script EvalOutcome.evalOk
                  WaitOutcome.timedOut pending0).pending,
               sent := sent }, false)) := by
  have hp : (execute_js_paths tok script EvalOutcome.evalOk
      WaitOutcome.timedOut pending0).pending = pending0 := by
    simp [execute_js_paths]
  refine ⟨rfl, hp, ?_, rfl, ?_⟩
  · rw [hp]
    exact h
  · intro payload sent hid
    exact listener_step_matched_absent tok payload _ hid (by rw [hp]; exact h)

/-- C4: if injection fails synchronously, `execute_js` removes the
fresh token from the registry, returns the `success=false` envelope
describing the injection failure, and never waits on the channel. -/
theorem injection_failure_path (tok script e : String)
    (wait : WaitOutcome) (pending0 : List String) (h : tok ∉ pending0) :
    (execute_js_paths tok script (EvalOutcome.evalErr e) wait
        pending0).ret
      = Except.ok (JVal.obj
          [("success", JVal.bool false),
           ("error", JVal.str ("Failed to execute script: " ++ e))])
    ∧ (execute_js_paths tok script (EvalOutcome.evalErr e) wait
        pending0).pending = pending0
    ∧ tok ∉ (execute_js_paths tok script (EvalOutcome.evalErr e) wait
        pending0).pending
    ∧ (execute_js_paths tok script (EvalOutcome.evalErr e) wait
        pending0).waited = false := by
  have hp : (execute_js_paths tok script (EvalOutcome.evalErr e) wait
      pending0).pending = pending0 := by
    simp [execute_js_paths]
  exact ⟨rfl, hp, by rw [hp]; exact h, rfl⟩

/-- C5: a notification that fails to parse, lacks a string `exec_id`,
or carries a different token, leaves the registry and the channels of
a waiting call untouched and obtains nothing. -/
theorem listener_ignores_foreign (tok : String) (p : ParsedPayload)
    (st : ExecSt) (hm : payload_matches tok p = false) :
    listener_step tok p st = (st, false) := by
  cases p with
  | parseFail => rfl
  | parsed payload =>
    unfold listener_step
    unfold payload_matches at hm
    dsimp only
    dsimp only at hm
    cases hv : getField payload "exec_id" with
    | none => rfl
    | some v =>
      rw [hv] at hm
      cases v with
      | str s =>
        have hne : s ≠ tok := by simpa using hm
        simp [hne]
      | null => rfl
      | bool b => rfl
      | num n => rfl
      | arr l => rfl
      | obj o => rfl

/-- C6: the envelope the listener builds from a matching payload is
exactly the envelope the spec describes: success with the data field
(defaulting to null) when `success` is the boolean `true`, otherwise
failure with the error string (defaulting to the generic message when
`error` is absent or not a string). -/
theorem build_result_refines_spec (payload : List (String × JVal)) :
    build_result payload = envelope_spec payload := by
  unfold build_result envelope_spec
  rw [build_result_error_eq]
  cases hs : getField payload "success" with
  | none => rfl
  | some v =>
    cases v with
    | bool b => cases b with
      | true => rfl
      | false => rfl
    | null => rfl
    | num n => rfl
    | str s => rfl
    | arr l => rfl
    | obj o => rfl

/-- C7: the three concrete preparation examples of the spec. -/
theorem prepare_script_examples :
    prepare_script "1+1" = "return 1+1"
    ∧ prepare_script "return 1+1" = "return 1+1"
    ∧ prepare_script "let x = 1; x + 1" = "let x = 1; x + 1" :=
  ⟨by decide, by decide, by decide⟩

/-- C8: a script whose trimmed text already starts with the return
keyword is returned unchanged. -/
theorem prepare_script_return_unchanged (script : String)
    (h : rust_starts_with (rust_trim script) "return " = true) :
    prepare_script script = script := by
  unfold prepare_script
  simp [h]

/-- Witness for C8 at the concrete script of the spec example. -/
theorem prepare_script_return_unchanged_witness :
    rust_starts_with (rust_trim "return 1+1") "return " = true
    ∧ prepare_script "return 1+1" = "return 1+1" :=
  ⟨by decide, prepare_script_return_unchanged "return 1+1" (by decide)⟩

/-- C9 as stated is false: a multi-statement script that also matches a
single-expression pattern is not returned unchanged — the script
starting with the asynchronous-wait keyword and containing an internal
semicolon gets a return keyword prefixed. -/
theorem multi_statement_priority_cex :
    rust_starts_with (rust_trim "await a; b") "return " = false
    ∧ is_multi_statement (rust_trim "await a; b") = true
    ∧ prepare_script "await a; b" ≠ "await a; b" :=
  ⟨by decide, by decide, by decide⟩

/-- C9 (amended): a script not starting with the return keyword that is
classified multi-statement and matches none of the single-expression or
wrapped-expression patterns is returned unchanged. -/
theorem multi_statement_unchanged (script : String)
    (_h1 : rust_starts_with (rust_trim script) "return " = false)
    (h2 : is_multi_statement (rust_trim script) = true)
    (h3 : is_single_expression (rust_trim script) = false)
    (h4 : is_wrapped_expression (rust_trim script) = false) :
    prepare_script script = script := by
  unfold prepare_script
  simp [h2, h3, h4]

/-- Witness for the amended C9 at the multi-statement spec example. -/
theorem multi_statement_unchanged_witness :
    rust_starts_with (rust_trim "let x = 1; x + 1") "return " = false
    ∧ is_multi_statement (rust_trim "let x = 1; x + 1") = true
    ∧ is_single_expression (rust_trim "let x = 1; x + 1") = false
    ∧ is_wrapped_expression (rust_trim "let x = 1; x + 1") = false
    ∧ prepare_script "let x = 1; x + 1" = "let x = 1; x + 1" :=
  ⟨by decide, by decide, by decide, by decide,
    multi_statement_unchanged "let x = 1; x + 1"
      (by decide) (by decide) (by decide) (by decide)⟩

/-- C10: on every path `execute_js` returns the `Ok` variant; the
channel-closed and delivered cases are spelled out (the injection
failure and timeout envelopes are given by the C3 and C4 theorems). -/
theorem execute_js_never_err (tok script : String) (inj : EvalOutcome)
    (wait : WaitOutcome) (pending0 : List String) :
    is_ok (execute_js_paths tok script inj wait pending0).ret = true
    ∧ (execute_js_paths tok script EvalOutcome.evalOk
        WaitOutcome.channelClosed pending0).ret
      = Except.ok (JVal.obj
          [("success", JVal.bool false),
           ("error", JVal.str "Script execution failed: channel closed")])
    ∧ (∀ v : JVal, (execute_js_paths tok script EvalOutcome.evalOk
        (WaitOutcome.delivered v) pending0).ret = Except.ok v) := by
  refine ⟨?_, rfl, fun v => rfl⟩
  cases inj <;> cases wait <;> rfl

/-- Witness for C1 at a concrete registered token and payload. -/
theorem exactly_once_removal_witness :
    ([("t1" : String)] : List String).Nodup
    ∧ ("t1" : String) ∈ (["t1"] : List String)
    ∧ getField [("exec_id", JVal.str "t1"), ("success", JVal.bool true)]
        "exec_id" = some (JVal.str "t1")
    ∧ (listener_step "t1"
        (ParsedPayload.parsed
          [("exec_id", JVal.str "t1"), ("success", JVal.bool true)])
        { pending := ["t1"], sent := [] }).2 = true :=
  ⟨by decide, by decide, by rfl,
    by
      have h := exactly_once_removal { pending := ["t1"], sent := [] }
        "t1" [("exec_id", JVal.str "t1"), ("success", JVal.bool true)]
        (by decide) (by decide) (by rfl)
      rw [h.1]⟩

/-- Witness for C3 at a concrete token and registry. -/
theorem timeout_cleans_registry_witness :
    ("t1" : String) ∉ (["t0"] : List String)
    ∧ (execute_js_paths "t1" "1+1" EvalOutcome.evalOk WaitOutcome.timedOut
        ["t0"]).pending = ["t0"] :=
  ⟨by decide,
    (timeout_cleans_registry "t1" "1+1" ["t0"] (by decide)).2.1⟩

/-- Witness for C4 at a concrete token and eval error. -/
theorem injection_failure_path_witness :
    ("t1" : String) ∉ ([] : List String)
    ∧ (execute_js_paths "t1" "1+1" (EvalOutcome.evalErr "window closed")
        WaitOutcome.timedOut []).waited = false :=
  ⟨by decide,
    (injection_failure_path "t1" "1+1" "window closed"
      WaitOutcome.timedOut [] (by decide)).2.2.2⟩

/-- Witness for C5 at a concrete foreign-token payload. -/
theorem listener_ignores_foreign_witness :
    payload_matches "t1"
        (ParsedPayload.parsed [("exec_id", JVal.str "t2")]) = false
    ∧ listener_step "t1"
        (ParsedPayload.parsed [("exec_id", JVal.str "t2")])
        { pending := ["t1"], sent := [] }
      = ({ pending := ["t1"], sent := [] }, false) :=
  ⟨by decide,
    listener_ignores_foreign "t1"
      (ParsedPayload.parsed [("exec_id", JVal.str "t2")])
      { pending := ["t1"], sent := [] } (by decide)⟩
